import Mathlib

/-!
Verification of the Sphinx documentation configuration `docs/conf.py` of the
Neyson repository.  The file is a flat Python module of literal assignments;
we embed it shallowly: each assigned name becomes a Lean definition with the
same name and the literal value from the source, and the whole file is also
modelled line by line (comments, blank lines and assignment statements) so
that structural properties of the artifact itself can be stated.
-/

namespace Conf

/-- A literal value occurring on the right-hand side of an assignment in
`docs/conf.py`: a string literal, a list of string literals, or a dict with
string keys and string values. -/
inductive Value where
  | str : String → Value
  | list : List String → Value
  | dict : List (String × String) → Value
deriving DecidableEq, Repr

/- The twelve module-level bindings of `docs/conf.py`, each with its literal
value from the source. -/

def project : String := "Neyson"

def copyright : String := "2025, Shahriar Rezghi"

def author : String := "Shahriar Rezghi"

def release : String := "2025"

def extensions : List String := ["breathe", "sphinx_rtd_theme", "sphinx_togglebutton"]

def templates_path : List String := ["_templates"]

def exclude_patterns : List String := ["_build", "Thumbs.db", ".DS_Store"]

def breathe_projects : List (String × String) := [("Neyson", "_build/xml/")]

def breathe_default_project : String := "Neyson"

def html_theme : String := "sphinx_rtd_theme"

def html_static_path : List String := ["_static"]

def html_logo : String := "_static/logo-64.png"

/-- An expression of the configuration language: a literal, or a reference to
a previously bound name (the latter does not occur in `docs/conf.py`, but the
evaluator must be able to fail on an unbound name for totality to be a real
property). -/
inductive PyExpr where
  | lit : Value → PyExpr
  | name : String → PyExpr
deriving DecidableEq, Repr

/-- A Python statement, as far as the configuration file could contain one:
an assignment of an expression to a name, or one of the statement forms that
would make the file algorithmic (none of which occur in `docs/conf.py`). -/
inductive Stmt where
  | assign : String → PyExpr → Stmt
  | forLoop : Stmt
  | condStmt : Stmt
  | funcDef : Stmt
  | callStmt : Stmt
deriving DecidableEq, Repr

/-- Whether a statement is a plain assignment. -/
def Stmt.isAssign : Stmt → Bool
  | .assign _ _ => true
  | _ => false

/-- One physical line of `docs/conf.py`: blank, a comment, or a statement. -/
inductive Line where
  | blank : Line
  | comment : String → Line
  | stmt : Stmt → Line
deriving DecidableEq, Repr

/-- The thirty lines of `docs/conf.py`, in order. -/
def confLines : List Line :=
  [ .comment "Configuration file for the Sphinx documentation builder.",
    .comment "",
    .comment "For the full list of built-in configuration values, see the documentation:",
    .comment "https://www.sphinx-doc.org/en/master/usage/configuration.html",
    .blank,
    .comment "-- Project information -----------------------------------------------------",
    .comment "https://www.sphinx-doc.org/en/master/usage/configuration.html#project-information",
    .blank,
    .stmt (.assign "project" (.lit (.str project))),
    .stmt (.assign "copyright" (.lit (.str copyright))),
    .stmt (.assign "author" (.lit (.str author))),
    .stmt (.assign "release" (.lit (.str release))),
    .blank,
    .comment "-- General configuration ---------------------------------------------------",
    .comment "https://www.sphinx-doc.org/en/master/usage/configuration.html#general-configuration",
    .blank,
    .stmt (.assign "extensions" (.lit (.list extensions))),
    .blank,
    .stmt (.assign "templates_path" (.lit (.list templates_path))),
    .stmt (.assign "exclude_patterns" (.lit (.list exclude_patterns))),
    .blank,
    .stmt (.assign "breathe_projects" (.lit (.dict breathe_projects))),
    .stmt (.assign "breathe_default_project" (.lit (.str breathe_default_project))),
    .blank,
    .comment "-- Options for HTML output -------------------------------------------------",
    .comment "https://www.sphinx-doc.org/en/master/usage/configuration.html#options-for-html-output",
    .blank,
    .stmt (.assign "html_theme" (.lit (.str html_theme))),
    .stmt (.assign "html_static_path" (.lit (.list html_static_path))),
    .stmt (.assign "html_logo" (.lit (.str html_logo))) ]

/-- The statements of the module, in source order. -/
def confStmts : List Stmt :=
  confLines.filterMap fun l =>
    match l with
    | .stmt s => some s
    | _ => none

/-- An environment of bindings, most recent first. -/
def Env := List (String × Value)

/-- Look a name up in an environment. -/
def Env.get (env : Env) (k : String) : Option Value :=
  (List.find? (fun p => p.1 == k) env).map Prod.snd

/-- Evaluate an expression; referencing an unbound name fails. -/
def evalExpr (env : Env) : PyExpr → Option Value
  | .lit v => some v
  | .name s => env.get s

/-- Execute one statement.  Only assignments are modelled; any of the
algorithmic statement forms would make evaluation fail. -/
def evalStmt (env : Env) : Stmt → Option Env
  | .assign k e => (evalExpr env e).map fun v => (k, v) :: env
  | _ => none

/-- Run a list of statements from a given environment. -/
def runStmts : Env → List Stmt → Option Env
  | env, [] => some env
  | env, s :: rest =>
    match evalStmt env s with
    | some env2 => runStmts env2 rest
    | none => none

/-- Evaluate the whole module from the empty environment. -/
def evalModule : Option Env := runStmts [] confStmts

/-- The keys assigned in the module, in source order. -/
def confKeys : List String :=
  confStmts.filterMap fun s =>
    match s with
    | .assign k _ => some k
    | _ => none

/-- Look up the final value of a key in the evaluated module. -/
def lookupKey (k : String) : Option Value :=
  match evalModule with
  | some env => env.get k
  | none => none

/-- The twelve configuration keys listed in the data-model table. -/
def twelveKeys : List String :=
  [ "project", "copyright", "author", "release", "extensions",
    "templates_path", "exclude_patterns", "breathe_projects",
    "breathe_default_project", "html_theme", "html_static_path", "html_logo" ]

/-- Whether `dir` lies under the directory `pat` (i.e. `pat` followed by a
path separator is a prefix of `dir`). -/
def underDir (pat dir : String) : Bool :=
  List.isPrefixOf (pat.data ++ ['/']) dir.data

end Conf

namespace Spec

open Conf

/-- Modelled from the spec: the four kinds of setting the specification says
the file contains only — "metadata (project name, author, copyright year), a
list of Sphinx extensions to load, static/template path declarations, and
HTML theme selection" — expressed as a predicate on configuration keys. -/
def inFourCategories (k : String) : Bool :=
  k == "project" || k == "author" || k == "copyright" ||
  k == "extensions" ||
  k == "templates_path" || k == "html_static_path" ||
  k == "html_theme"

/-- The kinds of setting actually present in `docs/conf.py` beyond the four
the spec names: a release label, exclusion patterns, the Breathe
project-to-XML mapping and default-project selection, and a logo path. -/
def inExtraCategories (k : String) : Bool :=
  k == "release" || k == "exclude_patterns" ||
  k == "breathe_projects" || k == "breathe_default_project" ||
  k == "html_logo"

/-- The semantic types of the data-model table. -/
inductive SemType where
  | str : SemType
  | strList : SemType
  | strDict : SemType
deriving DecidableEq, Repr

/-- Modelled from the spec: the semantic type the data-model table assigns to
each configuration key. -/
def specSemType (k : String) : Option SemType :=
  if k == "project" ∨ k == "copyright" ∨ k == "author" ∨ k == "release" ∨
     k == "breathe_default_project" ∨ k == "html_theme" ∨ k == "html_logo" then
    some .str
  else if k == "extensions" ∨ k == "templates_path" ∨ k == "exclude_patterns" ∨
     k == "html_static_path" then
    some .strList
  else if k == "breathe_projects" then
    some .strDict
  else
    none

/-- Whether a value has the given semantic type. -/
def hasType : Value → SemType → Bool
  | .str _, .str => true
  | .list _, .strList => true
  | .dict _, .strDict => true
  | _, _ => false

end Spec

open Conf Spec

/-- C1: the value of `breathe_default_project` is a key of the
`breathe_projects` mapping, and `breathe_projects` maps that project name,
`"Neyson"`, to its generated-XML directory `"_build/xml/"`. -/
theorem c1_default_project_is_key :
    (breathe_projects.map Prod.fst).contains breathe_default_project = true ∧
    breathe_default_project = "Neyson" ∧
    breathe_projects.lookup "Neyson" = some "_build/xml/" := by
  refine ⟨by decide, rfl, by decide⟩

/-- C2 counterexample: the claim that every binding of the file falls into
the four categories named by the spec (project metadata, extensions list,
static/template path declarations, HTML theme selection) is false: the key
`breathe_projects` is bound in the file, and it is none of the four — it is
the Breathe project-to-XML mapping. -/
theorem c2_breathe_projects_outside_four_categories :
    "breathe_projects" ∈ confKeys ∧
    inFourCategories "breathe_projects" = false := by
  decide

/-- C2 (amended): every binding of the file is either one of the four kinds
of setting the spec names (project metadata, extensions list, static/template
path declarations, HTML theme selection) or one of the further kinds actually
present: a release label, exclusion patterns, the Breathe project-to-XML
mapping and default-project selection, and a logo path. -/
theorem c2_bindings_categorised :
    (confKeys.all fun k => inFourCategories k || inExtraCategories k) = true := by
  decide

/-- C3: every assignment of the file assigns a literal value of the semantic
type the data-model table gives its key — strings for `project`, `copyright`,
`author`, `release`, `breathe_default_project`, `html_theme` and `html_logo`;
sequences of strings for `extensions`, `templates_path`, `exclude_patterns`
and `html_static_path`; a string-to-string mapping for `breathe_projects`. -/
theorem c3_bindings_have_spec_types :
    (confStmts.all fun s =>
      match s with
      | .assign k (.lit v) =>
        match specSemType k with
        | some t => hasType v t
        | none => false
      | _ => false) = true := by
  decide

/-- C4: the artifact is exactly 30 lines long; every statement in it is a
declarative key-value assignment (no loops, conditionals, function
definitions or calls); and each key is assigned exactly once. -/
theorem c4_thirty_declarative_lines :
    confLines.length = 30 ∧
    (confLines.all fun l =>
      match l with
      | .stmt s => s.isAssign
      | _ => true) = true ∧
    confKeys.Nodup := by
  refine ⟨by decide, by decide, by decide⟩

/-- C5: the `extensions` sequence contains the plugin name `"breathe"`. -/
theorem c5_breathe_extension_loaded :
    extensions.contains "breathe" = true := by
  decide

/-- C6: the `project` key holds the display name of the documented project,
the string `"Neyson"`, and evaluating the module binds it to that string. -/
theorem c6_project_name :
    project = "Neyson" ∧ lookupKey "project" = some (.str "Neyson") := by
  refine ⟨rfl, by decide⟩

/-- C7: evaluating the configuration module succeeds (no statement fails),
and the resulting environment defines all twelve listed configuration
keys. -/
theorem c7_evaluation_total :
    evalModule.isSome = true ∧
    (twelveKeys.all fun k => (lookupKey k).isSome) = true := by
  refine ⟨by decide, by decide⟩

/-- C8: the string assigned to `html_theme`, `"sphinx_rtd_theme"`, is also an
element of the `extensions` sequence. -/
theorem c8_theme_among_extensions :
    html_theme = "sphinx_rtd_theme" ∧
    extensions.contains html_theme = true := by
  refine ⟨rfl, by decide⟩

/-- C9: the generated-XML directory of every entry of `breathe_projects`
lies under a directory listed in `exclude_patterns`; concretely the sole
entry maps to `"_build/xml/"`, which lies under `"_build"`, an element of
`exclude_patterns`. -/
theorem c9_xml_dir_excluded :
    (breathe_projects.all fun p =>
      exclude_patterns.any fun pat => underDir pat p.2) = true ∧
    breathe_projects = [("Neyson", "_build/xml/")] ∧
    exclude_patterns.contains "_build" = true := by
  refine ⟨by decide, rfl, by decide⟩

/-- C10: the `html_logo` path `"_static/logo-64.png"` lies under
`"_static"`, the sole entry of `html_static_path`. -/
theorem c10_logo_under_static_path :
    html_static_path = ["_static"] ∧
    underDir "_static" html_logo = true := by
  refine ⟨rfl, by decide⟩
